import Mathlib

/-!
Verification of the OpenDevin action/observation control loop and its
conversational memory model, shallowly embedded from the Python sources
`src/agenthub/langchains_agent/__init__.py`, `src/opendevin/agent.py` and
`src/opendevin/server/session.py`.

Python dicts of the shape `{"action": kind, "args": {...}}` are embedded as
an `Event` structure whose `args` field is an `Option` of an association
list (the `finish` encoding carries no `args` key at all, which `none`
records). Exceptions raised by the Python code are embedded as `Except`
results.
-/

namespace OpenDevin

/-- An event dict as built by the agent code: an action kind string plus an
optional mapping of argument names to values. A Python dict that has no
`args` key at all is embedded as `args = none`. -/
structure Event where
  action : String
  args : Option (List (String × String))
deriving DecidableEq, Repr

/-- Argument lookup in an args mapping, as Python `args[key]` /
`key in args` on a dict (first binding wins; dicts have unique keys). -/
def lookupArg : List (String × String) → String → Option String
  | [], _ => none
  | (k, v) :: rest, key => if k = key then some v else lookupArg rest key

/-- The closed set of Action variants imported by the agent
(`opendevin/action.py` is not under src/; the variants and their fields are
modelled from the spec data model `Run(command), Kill(id), BrowseURL(url),
FileRead(path), FileWrite(path, content), Recall(query), Think(thought),
Finish` together with the attribute accesses the src code performs:
`prev_action.command`, `.id`, `.url`, `.path`, `.contents`, `.query`,
`.thought`). -/
inductive Action where
  | cmdRun (command : String)
  | cmdKill (id : String)
  | browseURL (url : String)
  | fileRead (path : String)
  | fileWrite (path : String) (contents : String)
  | agentRecall (query : String)
  | agentThink (thought : String)
  | agentFinish
deriving DecidableEq, Repr

/-- Encoding of a previous action into its event dict, exactly as the
`isinstance` chain of `LangchainsAgent.step` builds `d`
(src/agenthub/langchains_agent/__init__.py lines 157-175). Note that the
`finish` case builds `{"action": "finish"}` with no `args` key. -/
def encodeAction : Action → Event
  | .cmdRun command => ⟨"run", some [("command", command)]⟩
  | .cmdKill id => ⟨"kill", some [("id", id)]⟩
  | .browseURL url => ⟨"browse", some [("url", url)]⟩
  | .fileRead path => ⟨"read", some [("file", path)]⟩
  | .fileWrite path contents => ⟨"write", some [("file", path), ("content", contents)]⟩
  | .agentRecall query => ⟨"recall", some [("query", query)]⟩
  | .agentThink thought => ⟨"think", some [("thought", thought)]⟩
  | .agentFinish => ⟨"finish", none⟩

/-- The keys of the `ACTION_TYPE_TO_CLASS` map
(src/agenthub/langchains_agent/__init__.py lines 70-79). -/
def actionKinds : List String :=
  ["run", "kill", "browse", "read", "write", "recall", "think", "finish"]

/-- Failure modes of `ACTION_TYPE_TO_CLASS[action_dict["action"]](**action_dict["args"])`:
a KeyError on the class map for an unrecognized kind, a KeyError reading a
missing `args` key of the dict, or a TypeError from calling a constructor
with keyword arguments that do not match its parameters. -/
inductive DecodeError where
  | unknownActionKind (kind : String)
  | missingArgs
  | badArguments (kind : String)
deriving DecidableEq, Repr

/-- Whether every key of the args mapping is an accepted keyword of the
constructor: Python raises TypeError on an unexpected keyword argument. -/
def keysAllowed (args : List (String × String)) (allowed : List String) : Bool :=
  args.all (fun kv => allowed.contains kv.1)

/-- Calling the Action class registered for `kind` with the args mapping as
keyword arguments. The constructor parameter names are the field names of
the modelled Action variants; a call succeeds exactly when every required
parameter is supplied and no unexpected keyword is passed. -/
def constructAction (kind : String) (args : List (String × String)) :
    Except DecodeError Action :=
  if kind = "run" then
    match lookupArg args "command" with
    | some command =>
      if keysAllowed args ["command"] then .ok (.cmdRun command)
      else .error (.badArguments kind)
    | none => .error (.badArguments kind)
  else if kind = "kill" then
    match lookupArg args "id" with
    | some id =>
      if keysAllowed args ["id"] then .ok (.cmdKill id)
      else .error (.badArguments kind)
    | none => .error (.badArguments kind)
  else if kind = "browse" then
    match lookupArg args "url" with
    | some url =>
      if keysAllowed args ["url"] then .ok (.browseURL url)
      else .error (.badArguments kind)
    | none => .error (.badArguments kind)
  else if kind = "read" then
    match lookupArg args "path" with
    | some path =>
      if keysAllowed args ["path"] then .ok (.fileRead path)
      else .error (.badArguments kind)
    | none => .error (.badArguments kind)
  else if kind = "write" then
    match lookupArg args "path", lookupArg args "contents" with
    | some path, some contents =>
      if keysAllowed args ["path", "contents"] then .ok (.fileWrite path contents)
      else .error (.badArguments kind)
    | _, _ => .error (.badArguments kind)
  else if kind = "recall" then
    match lookupArg args "query" with
    | some query =>
      if keysAllowed args ["query"] then .ok (.agentRecall query)
      else .error (.badArguments kind)
    | none => .error (.badArguments kind)
  else if kind = "think" then
    match lookupArg args "thought" with
    | some thought =>
      if keysAllowed args ["thought"] then .ok (.agentThink thought)
      else .error (.badArguments kind)
    | none => .error (.badArguments kind)
  else if kind = "finish" then
    if keysAllowed args [] then .ok .agentFinish
    else .error (.badArguments kind)
  else .error (.unknownActionKind kind)

/-- Decoding an action dict, as
`ACTION_TYPE_TO_CLASS[action_dict["action"]](**action_dict["args"])`
(src/agenthub/langchains_agent/__init__.py line 189): Python first indexes
the class map with the kind (KeyError for an unrecognized kind), then reads
`action_dict["args"]` (KeyError if the dict has no such key), then calls
the constructor. -/
def decodeEvent (e : Event) : Except DecodeError Action :=
  if actionKinds.contains e.action then
    match e.args with
    | none => .error .missingArgs
    | some args => constructAction e.action args
  else .error (.unknownActionKind e.action)

/-- The fallback action dict the step substitutes when the backend returns
None (src/agenthub/langchains_agent/__init__.py lines 185-186). -/
def defaultThinkDict : Event :=
  ⟨"think", some [("thought", "...")]⟩

/-- The tail of `LangchainsAgent.step`: take the backend result (None
embedded as `none`), substitute the default think dict when absent, and
decode it into an Action (lines 179-191). -/
def stepDecide (backendResult : Option Event) : Except DecodeError Action :=
  let actionDict := backendResult.getD defaultThinkDict
  decodeEvent actionDict

/-! ## Event appending: truncation, monologue, memory, condensation
Embeds `LangchainsAgent._add_event` (src/agenthub/langchains_agent/__init__.py
lines 91-98) together with the constants `MAX_OUTPUT_LENGTH` and
`MAX_MONOLOGUE_LENGTH` (lines 66-67). -/

def MAX_OUTPUT_LENGTH : Nat := 5000

def MAX_MONOLOGUE_LENGTH : Nat := 20000

/-- Truncation of an over-long output value:
`event["args"]["output"][:MAX_OUTPUT_LENGTH] + "..."` (line 93). Python
slicing counts characters, as `List.take` on the character list does. -/
def truncStr (v : String) : String :=
  ⟨v.data.take MAX_OUTPUT_LENGTH⟩ ++ "..."

/-- The in-place update of the args dict performed by `_add_event` lines
92-93: if the mapping binds `output` to a string longer than
`MAX_OUTPUT_LENGTH`, that binding is replaced by its truncation; every
other binding is kept. -/
def truncateOutput : List (String × String) → List (String × String)
  | [] => []
  | (k, v) :: rest =>
    (if k = "output" ∧ v.length > MAX_OUTPUT_LENGTH then (k, truncStr v) else (k, v))
      :: truncateOutput rest

/-- The event actually stored after the truncation step of `_add_event`. -/
def truncEvent (e : Event) (args : List (String × String)) : Event :=
  ⟨e.action, some (truncateOutput args)⟩

/-- Modelled from the spec: the serialized size of one event, the unit of
the monologue total-length metric. `Monologue.get_total_length`
(agenthub/langchains_agent/utils/monologue.py) is not under src/; the spec
describes the Event Log as carrying a derived total-length metric that is
the sum of serialized sizes. Here the serialized size of an event is the
length of its kind string plus the lengths of all argument keys and
values. -/
def eventSize (e : Event) : Nat :=
  e.action.length +
    (e.args.getD []).foldl (fun acc kv => acc + kv.1.length + kv.2.length) 0

/-- Modelled from the spec: `Monologue.get_total_length`, the sum of the
serialized sizes of the stored events. -/
def getTotalLength (events : List Event) : Nat :=
  events.foldl (fun acc e => acc + eventSize e) 0

/-- The mutable state `_add_event` touches: the monologue event list and
the long-term memory event list (the memory is append-only from the
view of the agent). -/
structure AgentMem where
  monologue : List Event
  memory : List Event
deriving DecidableEq, Repr

/-- Embeds `LangchainsAgent._add_event` (lines 91-98). The Python body
first evaluates `"output" in event["args"]`, which raises KeyError when the
event dict has no `args` key at all; this is the `none` branch. Otherwise
the over-long output is truncated, the event is appended to the monologue
and to the long-term memory, and `self.monologue.condense()` is invoked
exactly when the recomputed total length exceeds `MAX_MONOLOGUE_LENGTH`.
The condensation algorithm itself lives in the missing
utils/monologue.py, so it is passed in as a function parameter; the
returned Bool records whether it was invoked. -/
def addEvent (condense : List Event → List Event) (st : AgentMem) (e : Event) :
    Except String (AgentMem × Bool) :=
  match e.args with
  | none => .error "KeyError: args"
  | some args =>
    let stored := truncEvent e args
    let mono := st.monologue ++ [stored]
    let mem := st.memory ++ [stored]
    if getTotalLength mono > MAX_MONOLOGUE_LENGTH then
      .ok (⟨condense mono, mem⟩, true)
    else
      .ok (⟨mono, mem⟩, false)

/-! ## Agent registry
Embeds `Agent.register` and `Agent.get_cls` (src/opendevin/agent.py lines
67-93). The registry dict `_registry : Dict[str, Type[Agent]]` is embedded
as an association list over an arbitrary type of agent classes; a Python
dict assignment of a fresh key appends it in insertion order. -/

/-- Registry lookup, as `name in cls._registry` / `cls._registry[name]`. -/
def lookupReg {α : Type} : List (String × α) → String → Option α
  | [], _ => none
  | (k, v) :: rest, key => if k = key then some v else lookupReg rest key

/-- Embeds `Agent.register` (agent.py lines 67-78): raises ValueError when
the name is already bound, otherwise binds it. -/
def registerAgent {α : Type} (reg : List (String × α)) (name : String) (agentCls : α) :
    Except String (List (String × α)) :=
  if (lookupReg reg name).isSome then
    .error ("Agent class already registered under " ++ name)
  else
    .ok (reg ++ [(name, agentCls)])

/-- Embeds `Agent.get_cls` (agent.py lines 80-93): raises ValueError when
the name is unbound, otherwise returns the bound class. -/
def get_cls {α : Type} (reg : List (String × α)) (name : String) : Except String α :=
  match lookupReg reg name with
  | none => .error ("No agent class registered under " ++ name)
  | some c => .ok c

/-! ## Session.start_task
Embeds `Session.start_task` (src/opendevin/server/session.py lines
135-144) as a pure transition on the session state, returning the new
state together with the ordered list of messages sent to the client. -/

/-- An outbound client message: an error reply
(`send_error`, sent as a dict with the error flag and the message), an
informational reply (`send_message`), or any other payload. -/
inductive Outbound where
  | errorMsg (message : String)
  | infoMsg (message : String)
deriving DecidableEq, Repr

/-- The Session attributes `start_task` can read or write: whether
`self.controller` is set, and whether `self.agent_task` holds a background
task handle (the agent reference is untouched by `start_task`, but is kept
so that the state-unchanged conclusion covers it). -/
structure SessionState where
  agentExists : Bool
  controllerExists : Bool
  agentTaskExists : Bool
deriving DecidableEq, Repr

/-- Embeds `Session.start_task` (session.py lines 135-144): if the args
mapping has no `task` key, reply with the error and return; otherwise send
the informational message, then error out if no controller exists, else
create the background agent task. -/
def start_task (st : SessionState) (args : List (String × String)) :
    SessionState × List Outbound :=
  match lookupArg args "task" with
  | none => (st, [.errorMsg "No task specified"])
  | some _ =>
    if st.controllerExists then
      ({st with agentTaskExists := true}, [.infoMsg "Starting new task..."])
    else
      (st, [.infoMsg "Starting new task...",
            .errorMsg "No agent started. Please wait a second..."])

/-! ## Observations
`opendevin/observation.py` is not under src/. Modelled from the spec: an
Observation carries `content` text and, for command execution
specifically, an `error` flag; `CmdOutputObservation` and
`BrowserOutputObservation` are the concrete shapes the step dispatches on,
and every other concrete observation class is a subclass of the base
`Observation` (the step imports them all from `opendevin.observation`).
The `other` variant stands for any Observation instance that is neither a
command output nor a browser output. -/
inductive Observation where
  | cmdOutput (content : String) (error : Bool)
  | browserOutput (content : String)
  | other (content : String)
deriving DecidableEq, Repr

/-- Whether `isinstance(obs, CmdOutputObservation)` holds. -/
def Observation.isCmdOutput : Observation → Bool
  | .cmdOutput _ _ => true
  | _ => false

/-- Whether `isinstance(obs, (BrowserOutputObservation, Observation))`
holds: every value of the Observation type is an instance of the base
class `Observation`, so this test is true of every observation. -/
def Observation.isBrowserOrBase : Observation → Bool
  | _ => true

/-- The `content` attribute of an observation. -/
def Observation.content : Observation → String
  | .cmdOutput c _ => c
  | .browserOutput c => c
  | .other c => c

/-- The `error` attribute of a command output observation (only read after
the `isinstance(obs, CmdOutputObservation)` test succeeds). -/
def Observation.errorFlag : Observation → Bool
  | .cmdOutput _ e => e
  | _ => false

/-- Embeds the observation branch of `LangchainsAgent.step` (lines
140-153): a command output observation with the error flag set becomes an
`error` event, any other command output becomes an `output` event, any
other observation passing the `isinstance(obs, (BrowserOutputObservation,
Observation))` test becomes an `output` event, and anything else raises
NotImplementedError. -/
def obsToEventDict (obs : Observation) : Except String Event :=
  if obs.isCmdOutput then
    if obs.errorFlag then
      .ok ⟨"error", some [("output", obs.content)]⟩
    else
      .ok ⟨"output", some [("output", obs.content)]⟩
  else if obs.isBrowserOrBase then
    .ok ⟨"output", some [("output", obs.content)]⟩
  else
    .error "NotImplementedError: Unknown observation type"

/-! ## Bootstrap script
Embeds `INITIAL_THOUGHTS` (src/agenthub/langchains_agent/__init__.py lines
27-63) and `LangchainsAgent._initialize` (lines 100-132). String escapes:
an apostrophe in the Python source is written \x27 here. -/

def INITIAL_THOUGHTS : List String := [
  "I exist!",
  "Hmm...looks like I can type in a command line prompt",
  "Looks like I have a web browser too!",
  "Here\x27s what I want to do: $TASK",
  "How am I going to get there though?",
  "It seems like I have some kind of short term memory.",
  "Each of my thoughts seems to be stored in a numbered list.",
  "It seems whatever I say next will be added to the list.",
  "But no one has perfect short-term memory. My list of thoughts will be summarized and condensed over time, losing information in the process.",
  "Fortunately I have long term memory!",
  "I can just say RECALL, followed by the thing I want to remember. And then related thoughts just spill out!",
  "Sometimes they\x27re random thoughts that don\x27t really have to do with what I wanted to remember. But usually they\x27re exactly what I need!",
  "Let\x27s try it out!",
  "RECALL what it is I want to do",
  "Here\x27s what I want to do: $TASK",
  "How am I going to get there though?",
  "Neat! And it looks like it\x27s easy for me to use the command line too! I just have to say RUN followed by the command I want to run. The command output just jumps into my head!",
  "RUN echo \"hello world\"",
  "hello world",
  "Cool! I bet I can read and edit files too.",
  "RUN echo \"console.log(\x27hello world\x27)\" > test.js",
  "",
  "I just created test.js. I\x27ll try and run it now.",
  "RUN node test.js",
  "hello world",
  "it works!",
  "And if I want to use the browser, I just need to say BROWSE, followed by a website I want to visit, or an action I want to take on the current site",
  "Let\x27s try that...",
  "BROWSE google.com",
  "<form><input type=\"text\"></input><button type=\"submit\"></button></form>",
  "Very cool. Now to accomplish my task.",
  "I\x27ll need a strategy. And as I make progress, I\x27ll need to keep refining that strategy. I\x27ll need to set goals, and break them into sub-goals.",
  "In between actions, I must always take some time to think, strategize, and set new goals. I should never take two actions in a row.",
  "OK so my task is to $TASK. I haven\x27t made any progress yet. Where should I start?",
  "It seems like there might be an existing project here. I should probably start by running `ls` to see what\x27s here."]

/-- Replacement of every occurrence of the placeholder `$TASK` by the
instruction, on character lists, matching Python
`thought.replace("$TASK", self.instruction)`: occurrences are found left
to right, non-overlapping, and the substituted text is not rescanned. -/
def replaceTaskChars (ins : List Char) : List Char → List Char
  | '$' :: 'T' :: 'A' :: 'S' :: 'K' :: rest => ins ++ replaceTaskChars ins rest
  | c :: rest => c :: replaceTaskChars ins rest
  | [] => []

/-- The substituted thought: `thought.replace("$TASK", instruction)`. -/
def replaceTask (instruction thought : String) : String :=
  ⟨replaceTaskChars instruction.data thought.data⟩

/-- Characters after the first occurrence of the separator, or `none` when
the separator does not occur. -/
def charsAfterSentinel (sep : List Char) : List Char → Option (List Char)
  | [] => none
  | c :: rest =>
    if sep.isPrefixOf (c :: rest) then some ((c :: rest).drop sep.length)
    else charsAfterSentinel sep rest

/-- Characters up to (excluding) the next occurrence of the separator; the
whole list when the separator does not occur again. -/
def charsUpToSentinel (sep : List Char) : List Char → List Char
  | [] => []
  | c :: rest =>
    if sep.isPrefixOf (c :: rest) then [] else c :: charsUpToSentinel sep rest

/-- Python `s.split(sep)[1]`: the segment between the first and second
occurrences of the separator (to the end of the string when the separator
occurs only once). On a string with no occurrence Python raises
IndexError; that case cannot arise from the sentinel guards in
`_initialize`, and is mapped to the empty string. -/
def splitPartOne (sep : String) (s : String) : String :=
  match charsAfterSentinel sep.data s.data with
  | some rest => ⟨charsUpToSentinel sep.data rest⟩
  | none => ""

/-- Python `s.startswith(p)`. -/
def startsWithStr (p : String) (s : String) : Bool :=
  p.data.isPrefixOf s.data

/-- One iteration of the `_initialize` loop body (lines 108-129): given the
`next_is_output` flag carried from the previous iteration and the raw
scripted thought, substitute the instruction for the placeholder and build
the event dict `d`, returning it with the updated flag. -/
def scriptStep (instruction : String) (nio : Bool) (thought0 : String) : Event × Bool :=
  let thought := replaceTask instruction thought0
  if nio then (⟨"output", some [("output", thought)]⟩, false)
  else if startsWithStr "RUN" thought then
    (⟨"run", some [("command", splitPartOne "RUN " thought)]⟩, true)
  else if startsWithStr "RECALL" thought then
    (⟨"recall", some [("query", splitPartOne "RECALL " thought)]⟩, true)
  else if startsWithStr "BROWSE" thought then
    (⟨"browse", some [("url", splitPartOne "BROWSE " thought)]⟩, true)
  else (⟨"think", some [("thought", thought)]⟩, false)

/-- The sequence of event dicts `d` computed by the `_initialize` loop, one
per scripted thought, in iteration order (the flag starts as False, line
107). These are the events the bootstrap script describes; the spec says
all of them are injected into the event log. -/
def scriptEventsAux (instruction : String) (nio : Bool) : List String → List Event
  | [] => []
  | t :: ts =>
    let s := scriptStep instruction nio t
    s.1 :: scriptEventsAux instruction s.2 ts

def scriptEvents (instruction : String) : List Event :=
  scriptEventsAux instruction false INITIAL_THOUGHTS

/-- Embeds `LangchainsAgent._initialize` (lines 100-132) on a fresh agent:
after the empty-instruction guard (line 104-105, ValueError), the loop
computes the event dict `d` for every scripted thought, but the call
`self._add_event(d)` at line 131 sits outside the loop body, so only the
value `d` holds after the last iteration is appended. Returns the
monologue contents after initialization. -/
def initializeMonologue (condense : List Event → List Event) (instruction : String) :
    Except String (List Event) :=
  if instruction = "" then .error "Instruction must be provided"
  else
    match (scriptEvents instruction).getLast? with
    | some d => (addEvent condense ⟨[], []⟩ d).map (fun r => r.1.monologue)
    | none => .ok []

/-! ## Supporting lemmas -/

/-- Lookup of the `output` key after the truncation pass: the bound value
is truncated exactly when it is longer than `MAX_OUTPUT_LENGTH`. -/
theorem lookupArg_truncateOutput (args : List (String × String)) :
    lookupArg (truncateOutput args) "output" =
      (lookupArg args "output").map
        (fun v => if v.length > MAX_OUTPUT_LENGTH then truncStr v else v) := by
  induction args with
  | nil => rfl
  | cons kv rest ih =>
    obtain ⟨k, v⟩ := kv
    simp only [truncateOutput]
    by_cases hk : k = "output"
    · subst hk
      by_cases hv : v.length > MAX_OUTPUT_LENGTH
      · rw [if_pos ⟨rfl, hv⟩]
        simp [lookupArg, hv]
      · rw [if_neg (fun hcon => hv hcon.2)]
        simp [lookupArg, hv]
    · rw [if_neg (fun hcon => hk hcon.1)]
      simp [lookupArg, hk, ih]

/-- Length of a truncated over-long output: the maximum plus the three
characters of the ellipsis marker. -/
theorem truncStr_length (s : String) (h : s.length > MAX_OUTPUT_LENGTH) :
    (truncStr s).length = MAX_OUTPUT_LENGTH + 3 := by
  have hd : MAX_OUTPUT_LENGTH < s.data.length := h
  show (String.mk (s.data.take MAX_OUTPUT_LENGTH) ++ "...").length = MAX_OUTPUT_LENGTH + 3
  rw [String.length_append]
  have h1 : (String.mk (s.data.take MAX_OUTPUT_LENGTH)).length = MAX_OUTPUT_LENGTH := by
    show (s.data.take MAX_OUTPUT_LENGTH).length = MAX_OUTPUT_LENGTH
    rw [List.length_take]
    omega
  rw [h1]
  decide

/-! ## Claim theorems -/

/-- C1: the claim says that for every non-empty instruction, the first
control-step invocation injects the entire canned bootstrap script (all 35
scripted events of INITIAL_THOUGHTS, placeholder-substituted, in order)
into the event log. On the code this fails: `self._add_event(d)` sits
outside the `for` loop of `_initialize`, so with instruction `"list
files"` the monologue after initialization holds exactly one event, the
think event computed for the last scripted thought, and not the 35-event
script. -/
theorem C1_bootstrap_appends_only_last :
    (scriptEvents "list files").length = 35 ∧
    initializeMonologue id "list files" =
      .ok [⟨"think", some [("thought", "It seems like there might be an existing project here. I should probably start by running `ls` to see what\x27s here.")]⟩] ∧
    [(⟨"think", some [("thought", "It seems like there might be an existing project here. I should probably start by running `ls` to see what\x27s here.")]⟩ : Event)] ≠
      scriptEvents "list files" :=
  ⟨rfl, rfl, by decide⟩

/-- C2 counterexample: the claim says every Action variant in the closed
set survives the encode-then-decode round trip. The Finish action refutes
it: the step encodes it as `{"action": "finish"}` with no `args` key, and
decoding reads `action_dict["args"]`, which raises KeyError instead of
returning the action. -/
theorem C2_counterexample :
    decodeEvent (encodeAction Action.agentFinish) ≠ Except.ok Action.agentFinish :=
  fun h => Except.noConfusion h

/-- C2 amended: the encode-then-decode round trip yields the original
action exactly for the Run, Kill, BrowseURL, Recall and Think variants.
Decoding the encoded FileRead and FileWrite fails with a TypeError (the
encoder emits the argument key `file`, while the constructors expect
`path`), and decoding the encoded Finish fails with a KeyError (its wire
shape carries no `args` mapping at all). -/
theorem C2_roundtrip_characterized (a : Action) :
    decodeEvent (encodeAction a) =
      match a with
      | .fileRead _ => .error (.badArguments "read")
      | .fileWrite _ _ => .error (.badArguments "write")
      | .agentFinish => .error .missingArgs
      | _ => .ok a := by
  cases a <;> rfl

/-- C3: decoding a backend action request whose kind string is not one of
the enumerated action kinds fails with the unknown-action-kind error (the
KeyError raised by indexing ACTION_TYPE_TO_CLASS), and is never mapped to
a default action. -/
theorem C3_unknown_kind_fails (e : Event) (h : e.action ∉ actionKinds) :
    decodeEvent e = .error (.unknownActionKind e.action) := by
  unfold decodeEvent
  rw [if_neg]
  simpa using h

/-- C3 witness: a concrete request with kind `chat` decodes to the
unknown-action-kind error. -/
theorem C3_witness :
    (⟨"chat", some []⟩ : Event).action ∉ actionKinds ∧
    decodeEvent ⟨"chat", some []⟩ = .error (.unknownActionKind "chat") :=
  ⟨by decide, C3_unknown_kind_fails ⟨"chat", some []⟩ (by decide)⟩

/-- C4: appending an event whose args bind `output` to a string longer
than MAX_OUTPUT_LENGTH stores the output truncated to the first
MAX_OUTPUT_LENGTH characters plus the ellipsis marker, for a stored
length of exactly MAX_OUTPUT_LENGTH + 3; an output of length at most
MAX_OUTPUT_LENGTH is stored unchanged. -/
theorem C4_output_truncation (args : List (String × String)) (s : String)
    (h : lookupArg args "output" = some s) :
    lookupArg (truncateOutput args) "output" =
      some (if s.length > MAX_OUTPUT_LENGTH then truncStr s else s) ∧
    (s.length > MAX_OUTPUT_LENGTH → (truncStr s).length = MAX_OUTPUT_LENGTH + 3) := by
  refine ⟨?_, fun hl => truncStr_length s hl⟩
  rw [lookupArg_truncateOutput, h]
  rfl

/-- C4 witness: a concrete args mapping binding `output` to a string of
5001 characters is stored truncated, at length 5003. -/
theorem C4_witness :
    lookupArg [("output", String.mk (List.replicate 5001 'a'))] "output" =
      some (String.mk (List.replicate 5001 'a')) ∧
    (lookupArg (truncateOutput [("output", String.mk (List.replicate 5001 'a'))]) "output" =
      some (if (String.mk (List.replicate 5001 'a')).length > MAX_OUTPUT_LENGTH
            then truncStr (String.mk (List.replicate 5001 'a'))
            else String.mk (List.replicate 5001 'a')) ∧
    ((String.mk (List.replicate 5001 'a')).length > MAX_OUTPUT_LENGTH →
      (truncStr (String.mk (List.replicate 5001 'a'))).length = MAX_OUTPUT_LENGTH + 3)) :=
  ⟨rfl, C4_output_truncation [("output", String.mk (List.replicate 5001 'a'))]
    (String.mk (List.replicate 5001 'a')) rfl⟩

/-- C5: an append by the agent invokes condensation before returning
exactly when the recomputed monologue total length exceeds
MAX_MONOLOGUE_LENGTH; the Bool in the result records whether
`self.monologue.condense()` was invoked. -/
theorem C5_condense_iff_over_ceiling (condense : List Event → List Event)
    (st : AgentMem) (e : Event) (args : List (String × String))
    (h : e.args = some args) :
    ∃ st2, addEvent condense st e =
      .ok (st2, decide (getTotalLength (st.monologue ++ [truncEvent e args]) >
        MAX_MONOLOGUE_LENGTH)) := by
  obtain ⟨act, argsOpt⟩ := e
  cases h
  dsimp only [addEvent]
  by_cases hc : getTotalLength (st.monologue ++ [truncEvent ⟨act, some args⟩ args]) > MAX_MONOLOGUE_LENGTH
  · exact ⟨_, by rw [if_pos hc, decide_eq_true hc]⟩
  · exact ⟨_, by rw [if_neg hc, decide_eq_false hc]⟩

/-- C5 witness: appending a small think event to an empty monologue does
not invoke condensation. -/
theorem C5_witness :
    (⟨"think", some [("thought", "hi")]⟩ : Event).args = some [("thought", "hi")] ∧
    ∃ st2, addEvent id ⟨[], []⟩ ⟨"think", some [("thought", "hi")]⟩ =
      .ok (st2, decide (getTotalLength
        (([] : List Event) ++ [truncEvent ⟨"think", some [("thought", "hi")]⟩ [("thought", "hi")]]) >
        MAX_MONOLOGUE_LENGTH)) :=
  ⟨rfl, C5_condense_iff_over_ceiling id ⟨[], []⟩ ⟨"think", some [("thought", "hi")]⟩
    [("thought", "hi")] rfl⟩

/-- C6: when the backend returns None, the step substitutes the default
think dict and decodes it, returning exactly one Think action whose
thought text is the three-dot string, with no error raised. -/
theorem C6_null_backend_thinks :
    stepDecide none = .ok (.agentThink "...") := rfl

/-- C7: registering a name already bound in the agent registry raises the
ValueError and binds nothing, so the first registration remains intact and
resolvable by `get_cls`. -/
theorem C7_duplicate_registration {α : Type} (reg : List (String × α))
    (name : String) (c c2 : α) (h : lookupReg reg name = some c) :
    registerAgent reg name c2 =
      .error ("Agent class already registered under " ++ name) ∧
    get_cls reg name = .ok c := by
  constructor
  · unfold registerAgent
    rw [h]
    rfl
  · unfold get_cls
    rw [h]

/-- C7 witness: registering `LangchainsAgent` twice fails on the second
call and the first binding still resolves. -/
theorem C7_witness :
    lookupReg [("LangchainsAgent", "cls1")] "LangchainsAgent" = some "cls1" ∧
    (registerAgent [("LangchainsAgent", "cls1")] "LangchainsAgent" "cls2" =
      .error ("Agent class already registered under " ++ "LangchainsAgent") ∧
    get_cls [("LangchainsAgent", "cls1")] "LangchainsAgent" = .ok "cls1") :=
  ⟨rfl, C7_duplicate_registration [("LangchainsAgent", "cls1")] "LangchainsAgent"
    "cls1" "cls2" rfl⟩

/-- C8: a start message whose args mapping lacks a `task` key makes the
Session reply with the visible error and return before creating any
background task; the session state is returned unchanged. -/
theorem C8_start_without_task (st : SessionState) (args : List (String × String))
    (h : lookupArg args "task" = none) :
    start_task st args = (st, [.errorMsg "No task specified"]) := by
  unfold start_task
  rw [h]

/-- C8 witness: a start message with empty args on a ready session yields
only the error reply and the same state. -/
theorem C8_witness :
    lookupArg ([] : List (String × String)) "task" = none ∧
    start_task ⟨true, true, false⟩ [] =
      (⟨true, true, false⟩, [.errorMsg "No task specified"]) :=
  ⟨rfl, C8_start_without_task ⟨true, true, false⟩ [] rfl⟩

/-- C9: folding a previous Finish action into history raises: the step
encodes it as an event dict with no `args` key, and `_add_event`
unconditionally evaluates `"output" in event["args"]`, which raises
KeyError on that dict. -/
theorem C9_finish_append_raises (condense : List Event → List Event) (st : AgentMem) :
    encodeAction Action.agentFinish = ⟨"finish", none⟩ ∧
    addEvent condense st (encodeAction Action.agentFinish) = .error "KeyError: args" :=
  ⟨rfl, rfl⟩

/-- C10: every value of the Observation type is encoded by the step as
either an `error` event (a command output with the error flag set) or an
`output` event; the NotImplementedError branch for an unknown observation
is unreachable, because every observation instance passes the
`isinstance(obs, (BrowserOutputObservation, Observation))` test. -/
theorem C10_observation_always_encoded (obs : Observation) :
    ∃ e, obsToEventDict obs = .ok e ∧
      (e.action = "error" ∨ e.action = "output") ∧
      e.args = some [("output", obs.content)] := by
  cases obs with
  | cmdOutput c err =>
    cases err
    · exact ⟨_, rfl, .inr rfl, rfl⟩
    · exact ⟨_, rfl, .inl rfl, rfl⟩
  | browserOutput c => exact ⟨_, rfl, .inr rfl, rfl⟩
  | other c => exact ⟨_, rfl, .inr rfl, rfl⟩

end OpenDevin
